import Mathlib

/-!
Verification development for `serial-image-capture.py` (EdgeImpulse serial
image capture tool).  The Python program runs a receive thread
(`ImageRxTask.run`) that scans a serial byte stream for base64-encoded image
lines, decodes them (JPEG via Pillow, or the EIML raw format with a 12-byte
header), and hands decoded frames to the GUI through a mutex-based
single-slot handoff (`GUI.update_image` / `GUI.refresh_image`).

Bytes are modelled as `Nat` (values 0..255 on real streams).  Fallible
operations return `Option`; the receive loop's `try/except` blocks are
modelled by the corresponding `Option`/branch structure.
-/

namespace SerialImageCapture

/-! ## Base64 decoding

Models Python's `base64.b64decode(s)` with the default `validate=False`:
characters outside the base64 alphabet and `=` are discarded, then the
remaining characters are decoded in groups of four; a group count that does
not fill quads raises `binascii.Error` (modelled as `none`).  Terminal
padding `==` / `=` yields one / two bytes.  (The program only ever feeds it
alphabet characters with at most terminal padding.) -/

/-- Value of a base64 alphabet character (`A`-`Z`, `a`-`z`, `0`-`9`, `+`, `/`),
given as its ASCII code; `none` for anything else (including `=`). -/
def b64charVal (c : Nat) : Option Nat :=
  if 65 ≤ c ∧ c ≤ 90 then some (c - 65)
  else if 97 ≤ c ∧ c ≤ 122 then some (c - 71)
  else if 48 ≤ c ∧ c ≤ 57 then some (c + 4)
  else if c = 43 then some 62
  else if c = 47 then some 63
  else none

/-- Discard characters that are neither base64 alphabet nor `=` (ASCII 61),
as `b64decode` does before the padding check. -/
def b64filter (s : List Nat) : List Nat :=
  s.filter fun c => (b64charVal c).isSome || c == 61

/-- Decode a filtered base64 character sequence quad by quad.  A full quad of
alphabet characters yields three bytes; a terminal `xx==` quad yields one
byte and `xxx=` yields two; a leftover group of 1-3 characters, or `=` in the
first two positions of a quad, fails (Python raises `binascii.Error`). -/
def b64decodeQuads : List Nat → Option (List Nat)
  | [] => some []
  | c0 :: c1 :: c2 :: c3 :: rest =>
    match b64charVal c0, b64charVal c1 with
    | some v0, some v1 =>
      if c2 = 61 then
        if c3 = 61 then some [v0 * 4 + v1 / 16] else none
      else
        match b64charVal c2 with
        | some v2 =>
          if c3 = 61 then some [v0 * 4 + v1 / 16, v1 % 16 * 16 + v2 / 4]
          else
            match b64charVal c3 with
            | some v3 =>
              (b64decodeQuads rest).map fun tail =>
                (v0 * 4 + v1 / 16) :: (v1 % 16 * 16 + v2 / 4) :: (v2 % 4 * 64 + v3) :: tail
            | none => none
        | none => none
    | _, _ => none
  | _ => none

/-- Models `base64.b64decode(s)` (default `validate=False`): filter, then
decode quads; `none` models a raised `binascii.Error`. -/
def b64decode (s : List Nat) : Option (List Nat) :=
  b64decodeQuads (b64filter s)

/-- Models `int.from_bytes(bs, 'little')`: little-endian unsigned integer. -/
def leNat : List Nat → Nat
  | [] => 0
  | b :: r => b + 256 * leNat r

/-! ## Decoded images

`Img` stands for the PIL `Image` objects the receive thread stores in its
local variable `img` and passes to `GUI.update_image`.  A JPEG image is kept
abstract as the byte string Pillow parsed; an EIML image records the
dimensions and RGB888 pixel bytes the program builds with `Image.frombytes`
(and, for grayscale, `convert(mode='RGB')`). -/

/-- A decoded frame as held by the receive thread / GUI. -/
inductive Img where
  | eiml (width height : Nat) (pixels : List Nat)
  | jpeg (data : List Nat)
deriving DecidableEq

/-! ## EIML frame decoding (lines 459-490 of the source)

Header constants from the source: `EIML_SOF_SIZE = 3`, `EIML_FORMAT_SIZE = 1`,
`EIML_WIDTH_SIZE = 4`, `EIML_HEIGHT_SIZE = 4`, `EIML_HEADER_SIZE = 12`,
`EIML_RESERVED = 0`, `EIML_GRAYSCALE = 1`, `EIML_RGB888 = 2`. -/

/-- Width field of a decoded EIML message: `int.from_bytes(msg_dec[4:8], 'little')`. -/
def hdrWidth (msg : List Nat) : Nat := leNat ((msg.drop 4).take 4)

/-- Height field of a decoded EIML message: `int.from_bytes(msg_dec[8:12], 'little')`. -/
def hdrHeight (msg : List Nat) : Nat := leNat ((msg.drop 8).take 4)

/-- Outcome of the EIML branch body between `msg_dec = base64.b64decode(...)`
and `self.gui.update_image(img)`:
* `ok`: a new image was built (`Image.frombytes` succeeded; grayscale is
  converted to RGB by replicating each byte into three channels);
* `err`: an exception was raised inside the `try` (header index out of
  range, or `Image.frombytes` found fewer pixel bytes than `width * height *
  bytes_per_pixel`), so control jumps to `except` before `update_image`;
* `noNewImage`: `format` matched neither `EIML_RGB888` nor `EIML_GRAYSCALE`,
  so no branch assigned `img`, and execution falls through to
  `self.gui.update_image(img)` with `img` still holding its previous binding. -/
inductive EimlOutcome where
  | ok (width height : Nat) (pixels : List Nat)
  | err
  | noNewImage
deriving DecidableEq

/-- Models the header parse and `Image.frombytes` calls of the EIML branch on
the base64-decoded message bytes `msg`.  `msg_dec[3]` raises `IndexError`
when the message is shorter than 4 bytes; the slices `msg_dec[4:8]`,
`msg_dec[8:12]`, `msg_dec[12:]` never raise (Python slicing truncates);
`Image.frombytes` raises `ValueError` when the supplied data has fewer than
`width * height * bytes_per_pixel` bytes and otherwise consumes exactly that
many bytes. -/
def eimlDecodeMsg (msg : List Nat) : EimlOutcome :=
  if msg.length < 4 then .err
  else
    let format := msg.getD 3 0
    let width := hdrWidth msg
    let height := hdrHeight msg
    let data := msg.drop 12
    if format = 2 then
      if 3 * (width * height) ≤ data.length then
        .ok width height (data.take (3 * (width * height)))
      else .err
    else if format = 1 then
      if width * height ≤ data.length then
        .ok width height ((data.take (width * height)).flatMap fun b => [b, b, b])
      else .err
    else .noNewImage

/-- Models the whole EIML branch (`rx_mode == RX_EIML`, lines 459-490),
including `base64.b64decode`, the `except: pass` handler, and the final
`self.gui.update_image(img)`.  `prev` is the current binding of the thread's
local variable `img` (`none` = never assigned).  Returns the new binding of
`img` and the list of frames passed to `update_image`.  Note the source
calls `update_image(img)` outside the `if format == ...` branches: on a
format byte that is neither RGB888 nor grayscale, the previous image is
re-published when one exists (and `UnboundLocalError` is swallowed when
none does). -/
def eimlProcess (prev : Option Img) (payload : List Nat) : Option Img × List Img :=
  match b64decode payload with
  | none => (prev, [])
  | some msg =>
    match eimlDecodeMsg msg with
    | .ok w h pixels => (some (.eiml w h pixels), [.eiml w h pixels])
    | .err => (prev, [])
    | .noNewImage =>
      match prev with
      | some p => (some p, [p])
      | none => (prev, [])

/-! ## Byte scanner and framer (`ImageRxTask.run`, lines 398-493)

The receive loop reads the stream one byte at a time (`self.ser.read()`),
appending to the persistent accumulation buffer `rx_buf` and keeping the
state variable `rx_mode` (`RX_STRING` / `RX_JPEG` / `RX_EIML`) across reads.
-/

/-- The receiver state machine constants `RX_STRING = 0`, `RX_JPEG = 1`,
`RX_EIML = 2`. -/
inductive RxMode where
  | string
  | jpeg
  | eiml
deriving DecidableEq

/-- Kind of a completed line handed to the per-kind branch: a plain
diagnostic line (printed), a JPEG base64 line, or an EIML base64 line. -/
inductive FrameKind where
  | plain
  | compressedImage
  | rawImage
deriving DecidableEq

/-- Scanner state: `rx_mode` and the accumulation buffer `rx_buf`. -/
structure ScanState where
  mode : RxMode
  buf : List Nat
deriving DecidableEq

/-- Initial scanner state: `rx_mode = RX_STRING`, `rx_buf = b''`. -/
def ScanState.init : ScanState := ⟨.string, []⟩

/-- ASCII bytes of `b'/9j/'`, the JPEG base64 start marker. -/
def jpegSofB64 : List Nat := [47, 57, 106, 47]

/-- ASCII bytes of `EIML_SOF_B64 = b'/6D/'`, the base64 encoding of the EIML
start-of-frame bytes `0xFF 0xA0 0xFF`. -/
def eimlSofB64 : List Nat := [47, 54, 68, 47]

/-- Python `rx_buf[:-2]`: drop the last two bytes. -/
def dropLast2 (l : List Nat) : List Nat := l.dropLast.dropLast

/-- One iteration of the inner read loop on one received byte `b`: append to
`rx_buf`; in `RX_STRING` mode compare the whole buffer against the two
4-character markers; then, if the byte just appended is the line feed `0x0A`,
finish the line: emit it with its kind (stripping the last two bytes in the
image modes, as `rx_buf = rx_buf[:-2]` does, with no check that the
second-to-last byte is `0x0D`), clear the buffer and return to `RX_STRING`. -/
def stepScan (s : ScanState) (b : Nat) : ScanState × List (FrameKind × List Nat) :=
  let buf := s.buf ++ [b]
  let mode :=
    if s.mode = .string then
      if buf = jpegSofB64 then .jpeg
      else if buf = eimlSofB64 then .eiml
      else .string
    else s.mode
  if b = 10 then
    match mode with
    | .string => (ScanState.init, [(.plain, buf)])
    | .jpeg => (ScanState.init, [(.compressedImage, dropLast2 buf)])
    | .eiml => (ScanState.init, [(.rawImage, dropLast2 buf)])
  else (⟨mode, buf⟩, [])

/-- Run the scanner over a byte list, collecting emitted `(kind, payload)`
lines in order. -/
def runScan : ScanState → List Nat → ScanState × List (FrameKind × List Nat)
  | s, [] => (s, [])
  | s, b :: r =>
    let p := stepScan s b
    let q := runScan p.1 r
    (q.1, p.2 ++ q.2)

/-- Run the scanner over a sequence of read chunks, state and buffer
persisting from one chunk to the next. -/
def runScanChunks : ScanState → List (List Nat) → ScanState × List (FrameKind × List Nat)
  | s, [] => (s, [])
  | s, c :: cs =>
    let p := runScan s c
    let q := runScanChunks p.1 cs
    (q.1, p.2 ++ q.2)

/-! ## Full receive pipeline: scanner plus frame decoder

`jpegOk d` stands for "Pillow's `Image.open` succeeds on the decoded bytes
`d`" — the JPEG decoder itself is external (Pillow) and kept abstract as a
parameter.  Decoded frames handed to `GUI.update_image` are collected as the
published output list. -/

/-- State of the receive thread: scanner state plus the current binding of
the thread-local variable `img` (`none` = not yet assigned). -/
structure RxState where
  scan : ScanState
  img : Option Img
deriving DecidableEq

/-- Initial receive-thread state. -/
def RxState.init : RxState := ⟨ScanState.init, none⟩

/-- Process one completed line according to its kind (the three branches at
lines 429-490): plain lines are printed and publish nothing; a JPEG line is
base64-decoded and opened by Pillow, publishing on success; an EIML line
runs `eimlProcess`. -/
def decodeEvent (jpegOk : List Nat → Bool) (prev : Option Img)
    (ev : FrameKind × List Nat) : Option Img × List Img :=
  match ev.1 with
  | .plain => (prev, [])
  | .compressedImage =>
    match b64decode ev.2 with
    | some d => if jpegOk d then (some (.jpeg d), [.jpeg d]) else (prev, [])
    | none => (prev, [])
  | .rawImage => eimlProcess prev ev.2

/-- Process the completed lines emitted while handling one byte (at most
one), threading the `img` binding and collecting published frames. -/
def decodeEvents (jpegOk : List Nat → Bool) :
    Option Img → List (FrameKind × List Nat) → Option Img × List Img
  | prev, [] => (prev, [])
  | prev, ev :: evs =>
    let r := decodeEvent jpegOk prev ev
    let q := decodeEvents jpegOk r.1 evs
    (q.1, r.2 ++ q.2)

/-- One received byte through scanner and decoder. -/
def stepRx (jpegOk : List Nat → Bool) (s : RxState) (b : Nat) : RxState × List Img :=
  let p := stepScan s.scan b
  let q := decodeEvents jpegOk s.img p.2
  (⟨p.1, q.1⟩, q.2)

/-- Run the receive thread over a byte list, collecting every frame passed to
`GUI.update_image` in order. -/
def runRx (jpegOk : List Nat → Bool) : RxState → List Nat → RxState × List Img
  | s, [] => (s, [])
  | s, b :: r =>
    let p := stepRx jpegOk s b
    let q := runRx jpegOk p.1 r
    (q.1, p.2 ++ q.2)

/-! ## Single-slot handoff (`GUI.update_image` / `GUI.refresh_image`)

The GUI holds `self.img` and `self.img_mutex`, a `threading.Lock` acquired
once at startup.  `update_image` (the producer side) stores the frame and
releases the lock; `refresh_image` (the consumer side) does
`acquire(blocking=False)` and reads `self.img` only when the acquire
succeeds.  Thus `locked = true` means the slot is empty/consumed and
`locked = false` means a fresh frame is pending.  Releasing an already
released lock raises `RuntimeError`; that call happens after `self.img` has
already been overwritten and the receive loop's `except` swallows the error,
so a second `publish` still leaves the slot holding the new frame with the
lock released. -/

/-- The GUI-side mailbox: `self.img` plus the lock state of `img_mutex`
(`locked = true` ⇔ the lock is held, i.e. no unconsumed frame). -/
structure Mailbox where
  img : Option Img
  locked : Bool
deriving DecidableEq

/-- Startup state: `self.img` unset, `img_mutex.acquire()` already called. -/
def Mailbox.init : Mailbox := ⟨none, true⟩

/-- Models `GUI.update_image` (lines 296-307): `self.img = img` then
`self.img_mutex.release()`.  When the lock is already released the release
raises, but only after the slot was overwritten, and the caller swallows the
exception — either way the post-state holds the new frame, pending. -/
def Mailbox.update_image (_ : Mailbox) (i : Img) : Mailbox := ⟨some i, false⟩

/-- Models the handoff part of `GUI.refresh_image` (lines 258-292):
`self.img_mutex.acquire(blocking=False)`; on failure nothing is read (the
tick is a no-op); on success the pending `self.img` is consumed and the lock
stays held until the next `update_image`. -/
def Mailbox.try_take (m : Mailbox) : Mailbox × Option Img :=
  if m.locked then (m, none)
  else (⟨m.img, true⟩, m.img)

/-! ## Port lifecycle (`ImageRxTask.connect` / `close`, lines 371-396)

`openResult port baud` abstracts the operating system / pyserial outcome of
`serial.Serial.open()` for the given settings: `true` = opens, `false` =
raises `SerialException`. -/

/-- The `serial.Serial` object's state as used by `connect`/`close`. -/
structure SerialPort where
  isOpen : Bool
  port : String
  baudrate : Nat
deriving DecidableEq

/-- Models `ImageRxTask.close` / `serial.Serial.close()`: idempotent, leaves
the port closed. -/
def SerialPort.close (s : SerialPort) : SerialPort := ⟨false, s.port, s.baudrate⟩

/-- Return code `OK = 0`. -/
def retOK : Nat := 0

/-- Return code `ERR = 1`. -/
def retERR : Nat := 1

/-- Models `ImageRxTask.connect` (lines 371-392): close the port first (any
exception is printed and ignored), store the new `port` and `baudrate`, then
try `open()` once — `OK` on success, `ERR` on exception, no retry. -/
def connect (openResult : String → Nat → Bool) (s : SerialPort)
    (port : String) (baud : Nat) : SerialPort × Nat :=
  let s1 := s.close
  let s2 : SerialPort := ⟨s1.isOpen, port, baud⟩
  if openResult port baud then (⟨true, s2.port, s2.baudrate⟩, retOK)
  else (s2, retERR)

/-! ## Concrete frames used as test inputs -/

/-- 24 pixel bytes of RGB data for a 4x2 RGB888 frame. -/
def c6Pixels : List Nat :=
  [1, 2, 3, 4, 5, 6, 7, 8, 9, 10, 11, 12, 13, 14, 15, 16, 17, 18, 19, 20, 21, 22, 23, 24]

/-- ASCII bytes of the base64 encoding of the 36-byte EIML message
`0xFF 0xA0 0xFF, 2, 4,0,0,0, 2,0,0,0` followed by `c6Pixels`
(the string `/6D/AgQAAAACAAAAAQIDBAUGBwgJCgsMDQ4PEBESExQVFhcY`). -/
def c6Payload : List Nat :=
  [47, 54, 68, 47, 65, 103, 81, 65, 65, 65, 65, 67, 65, 65, 65, 65, 65, 81, 73, 68,
   66, 65, 85, 71, 66, 119, 103, 74, 67, 103, 115, 77, 68, 81, 52, 80, 69, 66, 69, 83,
   69, 120, 81, 86, 70, 104, 99, 89]

/-- The C6 scenario stream: `c6Payload` terminated by `\r\n`. -/
def c6Stream : List Nat := c6Payload ++ [13, 10]

/-- The 36 decoded bytes of `c6Payload`: EIML header (RGB888, width 4,
height 2) followed by `c6Pixels`. -/
def c6Msg : List Nat := [255, 160, 255, 2, 4, 0, 0, 0, 2, 0, 0, 0] ++ c6Pixels

/-- ASCII bytes of the base64 encoding of the same 36-byte message but with
pixel-format byte `0` (`EIML_RESERVED`) instead of `2`. -/
def c1ReservedPayload : List Nat :=
  [47, 54, 68, 47, 65, 65, 81, 65, 65, 65, 65, 67, 65, 65, 65, 65, 65, 81, 73, 68,
   66, 65, 85, 71, 66, 119, 103, 74, 67, 103, 115, 77, 68, 81, 52, 80, 69, 66, 69, 83,
   69, 120, 81, 86, 70, 104, 99, 89]

/-- A valid RGB888 frame line followed by a reserved-format frame line. -/
def c1Stream : List Nat := c6Stream ++ c1ReservedPayload ++ [13, 10]

/-- The 32-byte EIML message that declares width=4, height=2, RGB888 (which
needs 24 pixel bytes) but carries only 20 bytes after the header. -/
def c2Msg : List Nat :=
  [255, 160, 255, 2, 4, 0, 0, 0, 2, 0, 0, 0,
   1, 2, 3, 4, 5, 6, 7, 8, 9, 10, 11, 12, 13, 14, 15, 16, 17, 18, 19, 20]

/-- ASCII bytes of the base64 encoding of `c2Msg`
(the string `/6D/AgQAAAACAAAAAQIDBAUGBwgJCgsMDQ4PEBESExQ=`). -/
def c2Payload : List Nat :=
  [47, 54, 68, 47, 65, 103, 81, 65, 65, 65, 65, 67, 65, 65, 65, 65, 65, 81, 73, 68,
   66, 65, 85, 71, 66, 119, 103, 74, 67, 103, 115, 77, 68, 81, 52, 80, 69, 66, 69, 83,
   69, 120, 81, 61]

/-- A 16-byte grayscale EIML message: header `0xFF 0xA0 0xFF, 1, 2,0,0,0,
2,0,0,0` followed by the 4 gray bytes 9, 8, 7, 6. -/
def c7Msg : List Nat := [255, 160, 255, 1, 2, 0, 0, 0, 2, 0, 0, 0, 9, 8, 7, 6]

/-- Sample port name used in closed instances. -/
def portNameA : String := "COM1"

/-- Another sample port name used in closed instances. -/
def portNameB : String := "ttyUSB0"

/-! ## Invariants of the scanner -/

/-- Shape of every payload the scanner can emit with kind `rawImage`: either
the 3-character stub `/6D` (the line was `/6D/` immediately followed by the
line feed) or a string starting with the full marker `/6D/`. -/
def rawPayloadShape (p : List Nat) : Prop :=
  p = [47, 54, 68] ∨ ∃ r, p = eimlSofB64 ++ r

/-- State invariant: whenever `rx_mode = RX_EIML`, the accumulation buffer
starts with the 4 marker characters `/6D/`. -/
def ScanInv (s : ScanState) : Prop :=
  s.mode = .eiml → ∃ r, s.buf = eimlSofB64 ++ r

/-! ## Theorems -/

/-- Decoding a concatenation of event lists decodes the first part, then the
second from the resulting `img` binding, concatenating the published frames. -/
theorem decodeEvents_append (jpegOk : List Nat → Bool) (prev : Option Img)
    (xs ys : List (FrameKind × List Nat)) :
    decodeEvents jpegOk prev (xs ++ ys) =
      ((decodeEvents jpegOk (decodeEvents jpegOk prev xs).1 ys).1,
       (decodeEvents jpegOk prev xs).2 ++
         (decodeEvents jpegOk (decodeEvents jpegOk prev xs).1 ys).2) := by
  induction xs generalizing prev with
  | nil => simp [decodeEvents]
  | cons ev evs ih => simp [decodeEvents, ih, List.append_assoc]

/-- The receive loop factors as: run the scanner, then decode the emitted
lines in order. -/
theorem runRx_eq_scan_decode (jpegOk : List Nat → Bool) (l : List Nat)
    (sc : ScanState) (im : Option Img) :
    runRx jpegOk ⟨sc, im⟩ l =
      (⟨(runScan sc l).1, (decodeEvents jpegOk im (runScan sc l).2).1⟩,
       (decodeEvents jpegOk im (runScan sc l).2).2) := by
  induction l generalizing sc im with
  | nil => simp [runRx, runScan, decodeEvents]
  | cons b r ih =>
    simp only [runRx, runScan, stepRx]
    rw [ih, decodeEvents_append]

/-- C3: after `publish(A)` then `publish(B)` (two `update_image` calls) with
no intervening `try_take`, publishing always succeeds and overwrites: the
next `try_take` returns exactly `B` (never `A`), and a second consecutive
`try_take` returns nothing — the consumer observes the most recently
published frame or none.  (The second `release` raises `RuntimeError`, but
only after `self.img` was overwritten with `B`, and the receive loop's
`except` swallows it, so the slot is left holding `B`, pending.) -/
theorem c3_publish_overwrites (m : Mailbox) (a b : Img) :
    (((m.update_image a).update_image b).try_take).2 = some b ∧
    ((((m.update_image a).update_image b).try_take).1.try_take).2 = none := by
  constructor <;> rfl

/-- C8: `try_take` on an empty mailbox (nothing ever published, or nothing
published since the last take) returns nothing — and, being a plain
`acquire(blocking=False)` followed by a field read, it never blocks; when a
frame is pending (just published) it returns that frame, and the slot is
cleared so that a second consecutive take returns nothing. -/
theorem c8_try_take_empty :
    (Mailbox.init.try_take).2 = none ∧
    (∀ m : Mailbox, ((m.try_take).1.try_take).2 = none) ∧
    ∀ (m : Mailbox) (i : Img),
      ((m.update_image i).try_take).2 = some i ∧
      ((((m.update_image i).try_take).1).try_take).2 = none := by
  refine ⟨rfl, fun m => ?_, fun m i => ⟨rfl, rfl⟩⟩
  rcases m with ⟨img, locked⟩
  cases locked <;> simp [Mailbox.try_take]

/-- C9: `connect(port, baud)` first closes any existing connection (closing
first is idempotent: connecting from an already-closed port is the same),
attempts to open once, reports success/failure synchronously through the
return code, and on failure leaves the port closed — no half-open state,
no retry. -/
theorem c9_connect_closed_on_failure (openResult : String → Nat → Bool)
    (s : SerialPort) (port : String) (baud : Nat) :
    connect openResult s.close port baud = connect openResult s port baud ∧
    ((connect openResult s port baud).2 = retOK ↔ openResult port baud = true) ∧
    ((connect openResult s port baud).2 = retERR →
      (connect openResult s port baud).1.isOpen = false) := by
  refine ⟨rfl, ?_, ?_⟩ <;>
    · unfold connect SerialPort.close retOK retERR
      cases h : openResult port baud <;> simp

/-- Closed instance of C9: connecting to an endpoint that cannot be opened
returns `ERR` and leaves the port closed. -/
theorem c9_connect_witness :
    connect (fun _ _ => false) (SerialPort.mk true portNameA 9600).close portNameB 115200 =
      connect (fun _ _ => false) (SerialPort.mk true portNameA 9600) portNameB 115200 ∧
    ((connect (fun _ _ => false) (SerialPort.mk true portNameA 9600) portNameB 115200).2 = retOK ↔
      (fun _ _ => false) portNameB 115200 = true) ∧
    ((connect (fun _ _ => false) (SerialPort.mk true portNameA 9600) portNameB 115200).2 = retERR →
      (connect (fun _ _ => false) (SerialPort.mk true portNameA 9600) portNameB 115200).1.isOpen
        = false) :=
  c9_connect_closed_on_failure (fun _ _ => false) (SerialPort.mk true portNameA 9600)
    portNameB 115200

/-- C10: when the accumulated line ends in the line-feed byte `0x0A` in
either image-collecting mode, the scanner unconditionally strips the last
two bytes of the buffer (`rx_buf[:-2]`) before handing the payload on — it
never checks that the second-to-last byte is the carriage return `0x0D`.
The emitted payload is `L.dropLast` for every buffer `L`, so a frame
terminated by a lone line feed loses the final character of its base64
payload. -/
theorem c10_unconditional_strip (L : List Nat) :
    stepScan ⟨.jpeg, L⟩ 10 = (ScanState.init, [(.compressedImage, L.dropLast)]) ∧
    stepScan ⟨.eiml, L⟩ 10 = (ScanState.init, [(.rawImage, L.dropLast)]) := by
  constructor <;> simp [stepScan, dropLast2, List.dropLast_concat]

set_option maxRecDepth 40000 in
/-- C6: delivering the base64 encoding of the 12 header bytes
`0xFF,0xA0,0xFF,2,4,0,0,0,2,0,0,0` followed by 24 RGB bytes, terminated by
`\r\n`, publishes exactly one decoded frame with width 4 (parsed little-
endian from bytes 4-7), height 2 (bytes 8-11), and pixel bytes equal to the
24 data bytes copied directly. -/
theorem c6_rgb888_scenario (jpegOk : List Nat → Bool) :
    (runRx jpegOk RxState.init c6Stream).2 = [Img.eiml 4 2 c6Pixels] := by
  have hscan : runScan ScanState.init c6Stream =
      (ScanState.init, [(FrameKind.rawImage, c6Payload)]) := by decide
  have hdec : eimlProcess none c6Payload =
      (some (Img.eiml 4 2 c6Pixels), [Img.eiml 4 2 c6Pixels]) := by decide
  rw [show RxState.init = ⟨ScanState.init, none⟩ from rfl, runRx_eq_scan_decode, hscan]
  simp [decodeEvents, decodeEvent, hdec]

set_option maxRecDepth 100000 in
/-- C1 (code bug): a RawImage frame with reserved pixel-format byte `0` is
not always rejected without publishing.  The source calls
`self.gui.update_image(img)` outside the `if format == EIML_RGB888 /
EIML_GRAYSCALE` branches, so when a frame was decoded earlier the stale
local `img` is re-published: on a valid 4x2 RGB888 line followed by a
reserved-format line, the first frame is handed to `update_image` twice. -/
theorem c1_reserved_republishes_previous :
    (runRx (fun _ => false) RxState.init c1Stream).2 =
      [Img.eiml 4 2 c6Pixels, Img.eiml 4 2 c6Pixels] := by decide

/-- C2: a RawImage frame whose decoded message carries fewer bytes after the
12-byte header than `width * height * bytes_per_pixel` (1 for grayscale
format 1, 3 for RGB888 format 2) is rejected: `Image.frombytes` raises
before `update_image` is reached, the `except` handler swallows the error,
no frame is published, the thread's `img` binding is unchanged, and (the
model being total, every byte access guarded) no out-of-bounds read occurs —
the loop goes on with the next frame. -/
theorem c2_short_payload_rejected (prev : Option Img) (payload msg : List Nat)
    (hdec : b64decode payload = some msg) (h4 : 4 ≤ msg.length)
    (hshort : msg.getD 3 0 = 1 ∧ (msg.drop 12).length < hdrWidth msg * hdrHeight msg ∨
      msg.getD 3 0 = 2 ∧ (msg.drop 12).length < 3 * (hdrWidth msg * hdrHeight msg)) :
    eimlProcess prev payload = (prev, []) := by
  have herr : eimlDecodeMsg msg = .err := by
    rcases hshort with ⟨hf, hlen⟩ | ⟨hf, hlen⟩ <;>
      · rw [List.getD_eq_getElem?_getD] at hf
        rw [List.length_drop] at hlen
        simp [eimlDecodeMsg, hf, Nat.not_lt.mpr h4, Nat.not_le.mpr hlen]
  simp [eimlProcess, hdec, herr]

/-- Closed instance of C2: the scenario frame declaring width 4, height 2,
RGB888 but supplying only 20 bytes after the header is rejected with nothing
published. -/
theorem c2_witness :
    b64decode c2Payload = some c2Msg ∧ eimlProcess none c2Payload = (none, []) :=
  ⟨by decide, c2_short_payload_rejected none c2Payload c2Msg (by decide) (by decide)
    (Or.inr ⟨by decide, by decide⟩)⟩

/-- Replicating every byte into three channels triples the length. -/
theorem tripleFlatMap_length (g : List Nat) :
    (g.flatMap fun b => [b, b, b]).length = 3 * g.length := by
  induction g with
  | nil => simp
  | cons b t ih =>
    simp only [List.flatMap_cons, List.length_append, List.length_cons, List.length_nil, ih]
    omega

/-- In the replicated buffer, the three entries of triple `i` all equal the
`i`-th input byte. -/
theorem tripleFlatMap_getElem (g : List Nat) (i : Nat) :
    (g.flatMap fun b => [b, b, b])[3 * i]? = g[i]? ∧
    (g.flatMap fun b => [b, b, b])[3 * i + 1]? = g[i]? ∧
    (g.flatMap fun b => [b, b, b])[3 * i + 2]? = g[i]? := by
  induction g generalizing i with
  | nil => simp
  | cons b t ih =>
    cases i with
    | zero => simp [List.flatMap_cons]
    | succ j =>
      have e0 : 3 * (j + 1) = 3 * j + 1 + 1 + 1 := by ring
      have e1 : 3 * (j + 1) + 1 = 3 * j + 1 + 1 + 1 + 1 := by ring
      have e2 : 3 * (j + 1) + 2 = 3 * j + 2 + 1 + 1 + 1 := by ring
      refine ⟨?_, ?_, ?_⟩
      · rw [e0]
        simp only [List.flatMap_cons, List.cons_append, List.nil_append,
          List.getElem?_cons_succ]
        exact (ih j).1
      · rw [e1]
        simp only [List.flatMap_cons, List.cons_append, List.nil_append,
          List.getElem?_cons_succ]
        exact (ih j).2.1
      · rw [e2]
        simp only [List.flatMap_cons, List.cons_append, List.nil_append,
          List.getElem?_cons_succ]
        exact (ih j).2.2

/-- C7: a grayscale RawImage message whose pixel data carries exactly
`width * height` bytes after the header decodes to an RGB888 buffer of three
times as many bytes (`convert(mode='RGB')` on an `L` image), where the
`i`-th consecutive triple has all three channel values equal to the `i`-th
input byte. -/
theorem c7_grayscale_triples (msg : List Nat) (h4 : 4 ≤ msg.length)
    (hf : msg.getD 3 0 = 1)
    (hlen : (msg.drop 12).length = hdrWidth msg * hdrHeight msg) :
    eimlDecodeMsg msg =
      .ok (hdrWidth msg) (hdrHeight msg) ((msg.drop 12).flatMap fun b => [b, b, b]) ∧
    ((msg.drop 12).flatMap fun b => [b, b, b]).length = 3 * (msg.drop 12).length ∧
    ∀ i : Nat,
      ((msg.drop 12).flatMap fun b => [b, b, b])[3 * i]? = (msg.drop 12)[i]? ∧
      ((msg.drop 12).flatMap fun b => [b, b, b])[3 * i + 1]? = (msg.drop 12)[i]? ∧
      ((msg.drop 12).flatMap fun b => [b, b, b])[3 * i + 2]? = (msg.drop 12)[i]? := by
  refine ⟨?_, tripleFlatMap_length _, fun i => tripleFlatMap_getElem _ i⟩
  have hguard : hdrWidth msg * hdrHeight msg ≤ (msg.drop 12).length := le_of_eq hlen.symm
  have htake : (msg.drop 12).take (hdrWidth msg * hdrHeight msg) = msg.drop 12 := by
    rw [← hlen]
    exact List.take_length _
  rw [List.getD_eq_getElem?_getD] at hf
  rw [List.length_drop] at hguard
  simp [eimlDecodeMsg, hf, Nat.not_lt.mpr h4, hguard, htake]

/-- Closed instance of C7: the 2x2 grayscale frame with gray bytes 9, 8, 7, 6
decodes to the replicated RGB888 buffer. -/
theorem c7_witness :
    eimlDecodeMsg c7Msg = .ok 2 2 [9, 9, 9, 8, 8, 8, 7, 7, 7, 6, 6, 6] :=
  (c7_grayscale_triples c7Msg (by decide) (by decide) (by decide)).1

/-- Running the scanner over a concatenation: the second part starts from
the state (mode and accumulation buffer) the first part left behind, and the
emitted lines concatenate. -/
theorem runScan_append (xs ys : List Nat) (s : ScanState) :
    runScan s (xs ++ ys) =
      ((runScan (runScan s xs).1 ys).1,
       (runScan s xs).2 ++ (runScan (runScan s xs).1 ys).2) := by
  induction xs generalizing s with
  | nil => simp [runScan]
  | cons b r ih =>
    simp only [List.cons_append, runScan, List.append_eq]
    rw [ih]
    simp [List.append_assoc]

/-- C4: chunk-boundary independence.  Delivering a byte stream in any
sequence of read chunks produces exactly the same scanner state and the same
sequence of emitted `(frame kind, payload)` lines as delivering the
concatenated stream in one chunk — `rx_mode` and `rx_buf` persist across
reads, so no frame boundary has to align with a read. -/
theorem c4_chunk_independence (chunks : List (List Nat)) (s : ScanState) :
    runScanChunks s chunks = runScan s chunks.flatten := by
  induction chunks generalizing s with
  | nil => simp [runScanChunks, runScan]
  | cons c cs ih =>
    simp only [runScanChunks, List.flatten]
    rw [runScan_append, ih]

/-- One scanner step preserves the marker invariant, and any `rawImage` line
it emits has the marker shape. -/
theorem stepScan_inv (s : ScanState) (b : Nat) (h : ScanInv s) :
    ScanInv (stepScan s b).1 ∧
    ∀ ev ∈ (stepScan s b).2, ev.1 = FrameKind.rawImage → rawPayloadShape ev.2 := by
  rcases s with ⟨mode, buf⟩
  cases mode with
  | string =>
    by_cases h1 : buf ++ [b] = jpegSofB64
    · have hb : b = 47 := by
        have hlast := congrArg List.getLast? h1
        rw [List.getLast?_concat, show jpegSofB64 = [47, 57, 106] ++ [47] from rfl,
          List.getLast?_concat] at hlast
        exact Option.some.inj hlast
      subst hb
      constructor
      · intro hm
        simp [stepScan, h1] at hm
      · intro ev hev
        simp [stepScan, h1] at hev
    · by_cases h2 : buf ++ [b] = eimlSofB64
      · have hb : b = 47 := by
          have hlast := congrArg List.getLast? h2
          rw [List.getLast?_concat, show eimlSofB64 = [47, 54, 68] ++ [47] from rfl,
            List.getLast?_concat] at hlast
          exact Option.some.inj hlast
        subst hb
        constructor
        · intro _
          refine ⟨[], ?_⟩
          simp [stepScan, h1, h2]
        · intro ev hev
          simp [stepScan, h1, h2] at hev
      · by_cases hbnl : b = 10
        · subst hbnl
          constructor
          · intro hm
            simp [stepScan, h1, h2, ScanState.init] at hm
          · intro ev hev hkind
            exfalso
            simp [stepScan, h1, h2] at hev
            subst hev
            simp at hkind
        · constructor
          · intro hm
            simp [stepScan, h1, h2, hbnl] at hm
          · intro ev hev
            simp [stepScan, h1, h2, hbnl] at hev
  | jpeg =>
    by_cases hbnl : b = 10
    · subst hbnl
      constructor
      · intro hm
        simp [stepScan, ScanState.init] at hm
      · intro ev hev hkind
        exfalso
        simp [stepScan] at hev
        subst hev
        simp at hkind
    · constructor
      · intro hm
        simp [stepScan, hbnl] at hm
      · intro ev hev
        simp [stepScan, hbnl] at hev
  | eiml =>
    obtain ⟨r, hr0⟩ := h rfl
    have hr : buf = eimlSofB64 ++ r := hr0
    subst hr
    by_cases hbnl : b = 10
    · subst hbnl
      constructor
      · intro hm
        simp [stepScan, ScanState.init] at hm
      · intro ev hev hkind
        simp [stepScan] at hev
        subst hev
        cases r with
        | nil =>
          exact Or.inl (by simp [dropLast2, eimlSofB64])
        | cons r0 rt =>
          refine Or.inr ⟨(r0 :: rt).dropLast, ?_⟩
          show dropLast2 ((eimlSofB64 ++ r0 :: rt) ++ [10]) =
            eimlSofB64 ++ (r0 :: rt).dropLast
          unfold dropLast2
          rw [List.dropLast_concat, List.dropLast_append_cons]
    · constructor
      · intro _
        exact ⟨r ++ [b], by simp [stepScan, hbnl, List.append_assoc]⟩
      · intro ev hev
        simp [stepScan, hbnl] at hev

/-- Every `rawImage` line emitted by a scanner run from an invariant state
has the marker shape, and the invariant is preserved. -/
theorem runScan_inv (l : List Nat) (s : ScanState) (h : ScanInv s) :
    ScanInv (runScan s l).1 ∧
    ∀ ev ∈ (runScan s l).2, ev.1 = FrameKind.rawImage → rawPayloadShape ev.2 := by
  induction l generalizing s with
  | nil => exact ⟨h, by simp [runScan]⟩
  | cons b r ih =>
    obtain ⟨h1, h2⟩ := stepScan_inv s b h
    obtain ⟨h3, h4⟩ := ih (stepScan s b).1 h1
    refine ⟨by simpa [runScan] using h3, ?_⟩
    intro ev hev hkind
    simp only [runScan, List.mem_append] at hev
    rcases hev with hev | hev
    · exact h2 ev hev hkind
    · exact h4 ev hev hkind

/-- A base64 string starting with the four marker characters `/6D/` decodes,
when decoding succeeds, to bytes starting with `0xFF 0xA0 0xFF`. -/
theorem b64decode_sof_prefix (r d : List Nat)
    (h : b64decode (eimlSofB64 ++ r) = some d) : d.take 3 = [255, 160, 255] := by
  have hfil : b64filter (eimlSofB64 ++ r) = 47 :: 54 :: 68 :: 47 :: b64filter r := by
    simp [b64filter, eimlSofB64, b64charVal]
  unfold b64decode at h
  rw [hfil] at h
  simp only [b64decodeQuads, b64charVal] at h
  norm_num at h
  rcases h with ⟨tail, htail, hd⟩
  simp [← hd]

/-- If base64 decoding of a payload fails, the EIML branch publishes nothing
and leaves the `img` binding unchanged. -/
theorem eimlProcess_decode_fail (prev : Option Img) (p : List Nat)
    (h : b64decode p = none) : eimlProcess prev p = (prev, []) := by
  simp [eimlProcess, h]

/-- C5: marker means of rejection.  Every payload the scanner tags as
`rawImage` was accumulated from a line whose first four characters were the
base64 marker `/6D/`, so whenever its base64 decode succeeds the decoded
bytes do begin with the sentinel `0xFF 0xA0 0xFF` — a RawImage-tagged
payload whose decoded bytes lack the sentinel cannot exist; and when the
decode fails (the only way a tagged payload can lack the sentinel bytes),
the frame is rejected and nothing is published. -/
theorem c5_raw_marker (bytes : List Nat) (ev : FrameKind × List Nat)
    (hmem : ev ∈ (runScan ScanState.init bytes).2)
    (hkind : ev.1 = FrameKind.rawImage) :
    (∀ d, b64decode ev.2 = some d → d.take 3 = [255, 160, 255]) ∧
    (b64decode ev.2 = none → ∀ prev, eimlProcess prev ev.2 = (prev, [])) := by
  have hshape : rawPayloadShape ev.2 :=
    (runScan_inv bytes ScanState.init (fun hm => by simp [ScanState.init] at hm)).2
      ev hmem hkind
  constructor
  · intro d hd
    rcases hshape with h3 | ⟨r, hr⟩
    · rw [h3] at hd
      rw [show b64decode [47, 54, 68] = none from rfl] at hd
      cases hd
    · rw [hr] at hd
      exact b64decode_sof_prefix r d hd
  · intro hnone prev
    exact eimlProcess_decode_fail prev ev.2 hnone

/-- Closed instance of C5: the line `/6D/` followed by a bare line feed is
tagged `rawImage` with payload `/6D`, whose decode fails, and the frame is
rejected with nothing published. -/
theorem c5_witness :
    ((FrameKind.rawImage, ([47, 54, 68] : List Nat)) ∈
      (runScan ScanState.init [47, 54, 68, 47, 10]).2) ∧
    (b64decode [47, 54, 68] = none →
      ∀ prev, eimlProcess prev [47, 54, 68] = (prev, [])) := by
  have hmem : (FrameKind.rawImage, ([47, 54, 68] : List Nat)) ∈
      (runScan ScanState.init [47, 54, 68, 47, 10]).2 := by decide
  exact ⟨hmem,
    (c5_raw_marker [47, 54, 68, 47, 10] (FrameKind.rawImage, [47, 54, 68]) hmem rfl).2⟩

end SerialImageCapture
